import Mathlib

/-!
Verification of the core API-access layer of the meta-ads-mcp server: the
Meta Graph API error classifier, the rate-limit throttle, the retrying
request executor, the cursor paginator, and the credential resolver.

Each definition is a shallow embedding of the corresponding TypeScript
source. JavaScript numbers are modelled as rationals, JavaScript string
truthiness (empty string is falsy) is made explicit through the helper
truthy, and JSON parse failures are modelled with nested options.
-/

/-- MCP protocol error codes used by the classifier (from the MCP SDK). -/
inductive ErrorCode where
  | invalidRequest
  | invalidParams
  | internalError
deriving DecidableEq

/-- An MCP error value: a protocol error code plus a message string. -/
structure McpError where
  code : ErrorCode
  message : String
deriving DecidableEq

/-- The vendor error payload shape from meta/types: `{ message, type, code, error_subcode? }`.
The `type` and trace fields play no role in classification and are omitted. -/
structure MetaApiError where
  code : Int
  error_subcode : Option Int
  message : String
deriving DecidableEq

/-- Embedding of `mapMetaErrorToMcp` from meta/errors: maps a Meta Graph API
error payload to an MCP error, following the source's branch order exactly.
The TypeScript guard `error_subcode ? ... : ""` is falsy for both a missing
subcode and subcode 0, which the match below reproduces. -/
def mapMetaErrorToMcp (e : MetaApiError) : McpError :=
  let code := e.code
  let error_subcode := e.error_subcode
  let message := e.message
  if code = 190 ∨ code = 102 ∨ code = 10 then
    let detail :=
      if code = 190 then "Invalid or expired access token. Please provide a valid token."
      else if code = 10 then "Insufficient permissions for this operation."
      else "Authentication required."
    { code := ErrorCode.invalidRequest, message := detail ++ " (Meta: " ++ message ++ ")" }
  else if code = 4 ∨ code = 17 ∨ code = 32 ∨ code = 613 then
    { code := ErrorCode.invalidRequest,
      message := "Rate limit exceeded. Please wait and try again. (Meta: " ++ message ++ ")" }
  else if code = 100 then
    { code := ErrorCode.invalidParams,
      message := "Invalid parameter: " ++ message ++
        (match error_subcode with
         | some sc => if sc = 0 then "" else " (subcode: " ++ toString sc ++ ")"
         | none => "") }
  else if code = 803 ∨ (code = 100 ∧ error_subcode = some 33) then
    { code := ErrorCode.invalidParams, message := "Object not found: " ++ message }
  else if code = 2650 then
    { code := ErrorCode.invalidRequest, message := "Duplicate: " ++ message }
  else if code = 1 ∨ code = 2 then
    { code := ErrorCode.internalError,
      message := "Meta API error: " ++ message ++ ". Please retry." }
  else
    { code := ErrorCode.internalError,
      message := "Meta API error (code " ++ toString code ++ "): " ++ message }

/-- Rate limiter state from meta/rate-limiter: two usage percentages, both 0
at construction. JavaScript numbers are modelled as rationals. -/
structure RateLimiterState where
  appUsagePercent : ℚ
  accountUsagePercent : ℚ
deriving DecidableEq

/-- JavaScript Math.round: round half towards positive infinity. -/
def jsRound (q : ℚ) : ℤ := ⌊q + 1/2⌋

/-- The `currentUsage` getter: max of the two tracked percentages. -/
def currentUsage (st : RateLimiterState) : ℚ :=
  max st.appUsagePercent st.accountUsagePercent

/-- Embedding of `RateLimiter.getThrottleDelay`: 0 below 75, a linear ramp
100..2000 on [75, 95), and a linear ramp from 5000 at 95 above that. -/
def getThrottleDelay (st : RateLimiterState) : ℤ :=
  let usage := currentUsage st
  if usage < 75 then 0
  else if usage < 95 then jsRound (100 + (usage - 75) / 20 * 1900)
  else jsRound (5000 + (usage - 95) / 5 * 55000)

/-- Parsed `x-app-usage` header payload: three optional numeric sub-metrics. -/
structure AppUsagePayload where
  call_count : Option ℚ
  total_cputime : Option ℚ
  total_time : Option ℚ
deriving DecidableEq

/-- One entry of the parsed `x-business-use-case-usage` header payload. -/
structure BizUsageEntry where
  call_count : Option ℚ
  total_cputime : Option ℚ
  total_time : Option ℚ
deriving DecidableEq

/-- The max-fold the source performs over all entries of all values of the
business-use-case usage object, starting from 0. -/
def bizMax (entries : List (List BizUsageEntry)) : ℚ :=
  entries.foldl
    (fun acc row =>
      row.foldl
        (fun a e =>
          max a (max (max (e.call_count.getD 0) (e.total_cputime.getD 0)) (e.total_time.getD 0)))
        acc)
    0

/-- Embedding of `RateLimiter.updateFromHeaders`. A header argument is
`none` when the header is absent, `some none` when it is present but
`JSON.parse` throws (the source catches and ignores this), and
`some (some p)` when it parses to payload `p`. -/
def updateFromHeaders (st : RateLimiterState)
    (appHeader : Option (Option AppUsagePayload))
    (bizHeader : Option (Option (List (List BizUsageEntry)))) : RateLimiterState :=
  let st1 :=
    match appHeader with
    | none => st
    | some none => st
    | some (some u) =>
      { st with
        appUsagePercent :=
          max (max (u.call_count.getD 0) (u.total_cputime.getD 0)) (u.total_time.getD 0) }
  match bizHeader with
  | none => st1
  | some none => st1
  | some (some entries) => { st1 with accountUsagePercent := bizMax entries }

/-- A response body as seen by the executor after `response.json()`:
either it matches the vendor error shape (`isMetaApiError`), or it is an
ordinary success payload, abstracted as a natural number tag. -/
inductive Body where
  | vendorErr (e : MetaApiError)
  | payload (v : Nat)
deriving DecidableEq

/-- An HTTP response delivered by the transport: status plus parsed body. -/
structure HttpResponse where
  status : Nat
  body : Body
deriving DecidableEq

/-- Errors the executor can raise: a classified MCP error thrown for a
vendor error body, a plain `HTTP <status>` error for a non-vendor non-2xx
response, or the generic `Request failed after retries` fallback. -/
inductive ExecErr where
  | mcp (e : McpError)
  | http (status : Nat)
  | exhausted
deriving DecidableEq

/-- Observable events of one `execute` call: the rate limiter throttle
sleep, a transport send, and a backoff sleep between retry attempts. -/
inductive Ev where
  | wait
  | send
  | backoff
deriving DecidableEq

/-- Number of transport sends in an event trace. -/
def sendCount : List Ev → Nat
  | [] => 0
  | Ev.wait :: t => sendCount t
  | Ev.send :: t => sendCount t + 1
  | Ev.backoff :: t => sendCount t

/-- Number of throttle waits in an event trace. -/
def waitCount : List Ev → Nat
  | [] => 0
  | Ev.wait :: t => waitCount t + 1
  | Ev.send :: t => waitCount t
  | Ev.backoff :: t => waitCount t

/-- The retry loop of `MetaApiClient.execute`, with the transport modelled
as a function from the attempt index to the response it yields. The fuel
argument counts the remaining loop iterations and is `maxRetries + 1 -
attempt` at every call site, so running out of fuel is exactly the source's
loop exit followed by `throw lastError ?? new Error(...)`. Each iteration
mirrors the source: terminal vendor codes 190/100/10 throw the classified
error at once; vendor codes 4/17/32 and 1/2 record the error, back off and
continue; a non-vendor body returns on a 2xx status, retries on 5xx, and
for other statuses the thrown plain error is caught by the surrounding
catch and retried while `attempt < maxRetries`. -/
def execAttempts (fetch : Nat → HttpResponse) (maxRetries : Nat) :
    Nat → Nat → Option ExecErr → Except ExecErr Nat × List Ev
  | 0, _, lastError => (Except.error (lastError.getD ExecErr.exhausted), [])
  | fuel + 1, attempt, _ =>
    let resp := fetch attempt
    match resp.body with
    | Body.vendorErr e =>
      let mcpError := mapMetaErrorToMcp e
      if e.code = 190 ∨ e.code = 100 ∨ e.code = 10 then
        (Except.error (ExecErr.mcp mcpError), [Ev.send])
      else if e.code = 4 ∨ e.code = 17 ∨ e.code = 32 then
        let r := execAttempts fetch maxRetries fuel (attempt + 1) (some (ExecErr.mcp mcpError))
        (r.1, Ev.send :: Ev.backoff :: r.2)
      else if e.code = 1 ∨ e.code = 2 then
        let r := execAttempts fetch maxRetries fuel (attempt + 1) (some (ExecErr.mcp mcpError))
        (r.1, Ev.send :: Ev.backoff :: r.2)
      else
        (Except.error (ExecErr.mcp mcpError), [Ev.send])
    | Body.payload v =>
      if 200 ≤ resp.status ∧ resp.status ≤ 299 then
        (Except.ok v, [Ev.send])
      else if 500 ≤ resp.status then
        let r := execAttempts fetch maxRetries fuel (attempt + 1) (some (ExecErr.http resp.status))
        (r.1, Ev.send :: Ev.backoff :: r.2)
      else if attempt < maxRetries then
        let r := execAttempts fetch maxRetries fuel (attempt + 1) (some (ExecErr.http resp.status))
        (r.1, Ev.send :: Ev.backoff :: r.2)
      else
        (Except.error (ExecErr.http resp.status), [Ev.send])

/-- Embedding of `MetaApiClient.execute` restricted to the path where the
transport yields an HTTP response on every attempt. The single
`rateLimiter.waitIfNeeded()` call the source makes before entering the
retry loop is recorded as the leading wait event. -/
def execute (fetch : Nat → HttpResponse) (maxRetries : Nat) : Except ExecErr Nat × List Ev :=
  let r := execAttempts fetch maxRetries (maxRetries + 1) 0 none
  (r.1, Ev.wait :: r.2)

/-- A response on which `execute` returns: a non-error body with 2xx status. -/
def isSuccessResponse (r : HttpResponse) : Prop :=
  (200 ≤ r.status ∧ r.status ≤ 299) ∧ ∃ v, r.body = Body.payload v

/-- JavaScript truthiness for a string-or-missing value: both absence and
the empty string are falsy. -/
def truthy (o : Option String) : Option String :=
  match o with
  | none => none
  | some s => if s = "" then none else some s

/-- Paging cursors from meta/types: `{ before?, after? }`. -/
structure PagingCursors where
  before : Option String
  after : Option String
deriving DecidableEq

/-- Paging envelope from meta/types: `{ cursors?, next?, previous? }`. -/
structure Paging where
  cursors : Option PagingCursors
  next : Option String
  previous : Option String
deriving DecidableEq

/-- A `MetaApiResponse<T>` with its required `data` array. -/
structure Page (T : Type) where
  data : List T
  paging : Option Paging
deriving DecidableEq

/-- A raw first page as `getPaginated` sees it, where the `data` field may
be absent from the JSON body. -/
structure RawPage (T : Type) where
  data : Option (List T)
  paging : Option Paging
deriving DecidableEq

/-- Embedding of `hasNextPage` from meta/paginator:
`!!paging?.next || !!paging?.cursors?.after`. -/
def hasNextPage (paging : Option Paging) : Bool :=
  (truthy (paging.bind Paging.next)).isSome ||
    (truthy ((paging.bind Paging.cursors).bind PagingCursors.after)).isSome

/-- Embedding of `getAfterCursor` from meta/paginator. -/
def getAfterCursor (paging : Option Paging) : Option String :=
  (paging.bind Paging.cursors).bind PagingCursors.after

/-- The while loop of `collectAllPages`, with explicit fuel bounding the
number of iterations (the source loop has no intrinsic bound). The second
component records, in order, the `after` cursors passed to the
caller-supplied continuation, so its length is the number of continuation
calls. The `if (!after) break` truthiness test of the source is the match
on `truthy`. -/
def collectLoop {T : Type} (fetchPage : String → Page T) (maxItems : Nat) :
    Nat → List T → Option Paging → List String → List T × List String
  | 0, items, _, calls => (items.take maxItems, calls)
  | fuel + 1, items, paging, calls =>
    if items.length < maxItems ∧ hasNextPage paging then
      match truthy (getAfterCursor paging) with
      | none => (items.take maxItems, calls)
      | some after =>
        let nextPage := fetchPage after
        collectLoop fetchPage maxItems fuel (items ++ nextPage.data) nextPage.paging
          (calls ++ [after])
    else
      (items.take maxItems, calls)

/-- Embedding of `collectAllPages` from meta/paginator: seed with the first
page's items, loop, then `items.slice(0, maxItems)`. -/
def collectAllPages {T : Type} (firstPage : Page T) (fetchPage : String → Page T)
    (maxItems fuel : Nat) : List T × List String :=
  collectLoop fetchPage maxItems fuel firstPage.data firstPage.paging []

/-- Embedding of `MetaApiClient.getPaginated` after the initial GET has
produced `firstPage`: `if (!firstPage.data) return []` (an absent or null
`data` field is falsy; an empty array is truthy) and otherwise hand over to
`collectAllPages`. The recorded cursor list shows which continuation GETs
are issued beyond the single initial one. -/
def getPaginated {T : Type} (firstPage : RawPage T) (fetchPage : String → Page T)
    (maxItems fuel : Nat) : List T × List String :=
  match firstPage.data with
  | none => ([], [])
  | some d => collectAllPages { data := d, paging := firstPage.paging } fetchPage maxItems fuel

/-- TokenManager state from auth/token-manager: an insertion-ordered map of
named tokens (JavaScript Map semantics) plus the active token name. -/
structure TokenManagerState where
  tokens : List (String × String)
  activeTokenName : Option String
deriving DecidableEq

/-- JavaScript `Map.set`: overwrite in place if the key exists, else append. -/
def mapSet : List (String × String) → String → String → List (String × String)
  | [], k, v => [(k, v)]
  | (k0, v0) :: rest, k, v =>
    if k0 = k then (k0, v) :: rest else (k0, v0) :: mapSet rest k v

/-- JavaScript `Map.get`, returning `none` for a missing key. -/
def mapGet : List (String × String) → String → Option String
  | [], _ => none
  | (k0, v0) :: rest, k => if k0 = k then some v0 else mapGet rest k

/-- JavaScript `Map.has`. -/
def mapHas (l : List (String × String)) (k : String) : Bool :=
  (mapGet l k).isSome

/-- Embedding of `TokenManager.getActiveToken`:
`if (!this.activeTokenName) return null; return this.tokens.get(...) ?? null`. -/
def getActiveToken (tm : TokenManagerState) : Option String :=
  match truthy tm.activeTokenName with
  | none => none
  | some n => mapGet tm.tokens n

/-- Embedding of `TokenManager.setActiveToken`: returns false and leaves
the state unchanged for an unknown name, else selects it. -/
def setActiveToken (tm : TokenManagerState) (name : String) : Bool × TokenManagerState :=
  if mapHas tm.tokens name then (true, { tm with activeTokenName := some name })
  else (false, tm)

/-- Embedding of `TokenManager.registerToken`: insert or overwrite, and if
no name is currently active (null or empty, both falsy) make this one
active. -/
def registerToken (tm : TokenManagerState) (name token : String) : TokenManagerState :=
  let tm1 := { tm with tokens := mapSet tm.tokens name token }
  match truthy tm1.activeTokenName with
  | none => { tm1 with activeTokenName := some name }
  | some _ => tm1

/-- Embedding of `getAccessToken` from auth/token-store: AsyncLocalStorage
per-call override first, then the token manager's active token, then the
`META_ACCESS_TOKEN` environment fallback, each guarded by JavaScript string
truthiness; with all three unavailable it throws the no-credential error. -/
def getAccessToken (ctx : Option String) (tm : TokenManagerState)
    (envToken : Option String) : Except String String :=
  match truthy ctx with
  | some t => Except.ok t
  | none =>
    match truthy (getActiveToken tm) with
    | some t => Except.ok t
    | none =>
      match truthy envToken with
      | some t => Except.ok t
      | none =>
        Except.error
          "No Meta access token available. Provide via X-Meta-Token header, META_TOKENS env var, or META_ACCESS_TOKEN env var."

/-- Transport for the retry scenario: a transient vendor server error
(code 1) on the first attempt, then a success body. -/
def fetchServerErrThenOk : Nat → HttpResponse := fun i =>
  if i = 0 then
    { status := 400, body := Body.vendorErr { code := 1, error_subcode := none, message := "srv" } }
  else { status := 200, body := Body.payload 42 }

/-- A vendor auth error payload with code 190. -/
def err190 : MetaApiError := { code := 190, error_subcode := none, message := "expired" }

/-- Transport that always yields the code 190 auth error. -/
def fetch190 : Nat → HttpResponse := fun _ =>
  { status := 400, body := Body.vendorErr err190 }

/-- Transport that never yields a success response (always HTTP 503). -/
def fetchAlways503 : Nat → HttpResponse := fun _ =>
  { status := 503, body := Body.payload 0 }

/-- Transport yielding a vendor error with the given code first, then a
success body. -/
def fetchRlThenOk (c : Int) : Nat → HttpResponse := fun i =>
  if i = 0 then
    { status := 400, body := Body.vendorErr { code := c, error_subcode := none, message := "rl" } }
  else { status := 200, body := Body.payload 7 }

/-- Transport yielding a code 613 vendor error first, then a success body. -/
def fetch613ThenOk : Nat → HttpResponse := fun i =>
  if i = 0 then
    { status := 400, body := Body.vendorErr { code := 613, error_subcode := none, message := "rl" } }
  else { status := 200, body := Body.payload 7 }

/-- Transport yielding an HTTP 500 response first, then a success body. -/
def fetch500ThenOk : Nat → HttpResponse := fun i =>
  if i = 0 then { status := 500, body := Body.payload 0 }
  else { status := 200, body := Body.payload 9 }

/-- First page of the pagination scenario: data [1], after cursor "a". -/
def pageOne : Page Nat :=
  { data := [1],
    paging := some { cursors := some { before := none, after := some "a" }, next := none, previous := none } }

/-- Second page of the pagination scenario: data [2], after cursor "b". -/
def pageTwo : Page Nat :=
  { data := [2],
    paging := some { cursors := some { before := none, after := some "b" }, next := none, previous := none } }

/-- Final page of the pagination scenario: data [3], a next link but no
after cursor. -/
def pageThree : Page Nat :=
  { data := [3],
    paging := some { cursors := none, next := some "nexturl", previous := none } }

/-- Continuation for the pagination scenario: cursor "a" yields the second
page, anything else the final page. -/
def fetchPages : String → Page Nat := fun a => if a = "a" then pageTwo else pageThree

/-- A first page whose body has no data field but does carry paging. -/
def rawNoData : RawPage Nat :=
  { data := none,
    paging := some { cursors := none, next := some "nexturl", previous := none } }

theorem execAttempts_error_of_no_success (fetch : Nat → HttpResponse) (mr : Nat)
    (h : ∀ i, ¬ isSuccessResponse (fetch i)) :
    ∀ (fuel attempt : Nat) (lastError : Option ExecErr),
      ∃ err, (execAttempts fetch mr fuel attempt lastError).1 = Except.error err := by
  intro fuel
  induction fuel with
  | zero => exact fun attempt lastError => ⟨lastError.getD ExecErr.exhausted, rfl⟩
  | succ n ih =>
    intro attempt lastError
    simp only [execAttempts]
    cases hb : (fetch attempt).body with
    | vendorErr e =>
      dsimp only
      by_cases h1 : e.code = 190 ∨ e.code = 100 ∨ e.code = 10
      · rw [if_pos h1]; exact ⟨_, rfl⟩
      · rw [if_neg h1]
        by_cases h2 : e.code = 4 ∨ e.code = 17 ∨ e.code = 32
        · rw [if_pos h2]; exact ih (attempt + 1) _
        · rw [if_neg h2]
          by_cases h3 : e.code = 1 ∨ e.code = 2
          · rw [if_pos h3]; exact ih (attempt + 1) _
          · rw [if_neg h3]; exact ⟨_, rfl⟩
    | payload v =>
      dsimp only
      by_cases hok : 200 ≤ (fetch attempt).status ∧ (fetch attempt).status ≤ 299
      · exact absurd ⟨hok, v, hb⟩ (h attempt)
      · rw [if_neg hok]
        by_cases h5 : 500 ≤ (fetch attempt).status
        · rw [if_pos h5]; exact ih (attempt + 1) _
        · rw [if_neg h5]
          by_cases h6 : attempt < mr
          · rw [if_pos h6]; exact ih (attempt + 1) _
          · rw [if_neg h6]; exact ⟨_, rfl⟩

theorem execAttempts_waitCount (fetch : Nat → HttpResponse) (mr : Nat) :
    ∀ (fuel attempt : Nat) (lastError : Option ExecErr),
      waitCount (execAttempts fetch mr fuel attempt lastError).2 = 0 := by
  intro fuel
  induction fuel with
  | zero => intro _ _; rfl
  | succ n ih =>
    intro attempt lastError
    simp only [execAttempts]
    cases hb : (fetch attempt).body with
    | vendorErr e =>
      dsimp only
      by_cases h1 : e.code = 190 ∨ e.code = 100 ∨ e.code = 10
      · rw [if_pos h1]; rfl
      · rw [if_neg h1]
        by_cases h2 : e.code = 4 ∨ e.code = 17 ∨ e.code = 32
        · rw [if_pos h2]; simp only [waitCount]; exact ih (attempt + 1) _
        · rw [if_neg h2]
          by_cases h3 : e.code = 1 ∨ e.code = 2
          · rw [if_pos h3]; simp only [waitCount]; exact ih (attempt + 1) _
          · rw [if_neg h3]; rfl
    | payload v =>
      dsimp only
      by_cases hok : 200 ≤ (fetch attempt).status ∧ (fetch attempt).status ≤ 299
      · rw [if_pos hok]; rfl
      · rw [if_neg hok]
        by_cases h5 : 500 ≤ (fetch attempt).status
        · rw [if_pos h5]; simp only [waitCount]; exact ih (attempt + 1) _
        · rw [if_neg h5]
          by_cases h6 : attempt < mr
          · rw [if_pos h6]; simp only [waitCount]; exact ih (attempt + 1) _
          · rw [if_neg h6]; rfl

/-- C1: the request executor retries only transient failures and raises
terminal errors on first occurrence: with maxRetries = 1 and a transport
yielding a code 1 vendor error then a success body, execute returns the
success body with exactly two transport sends; for any maxRetries, a first
response whose body is a code 190 vendor error makes execute raise the
classified error after exactly one send; and when no attempt yields a
success response, execute always raises. -/
theorem execute_retries_transient_raises_terminal :
    ((execute fetchServerErrThenOk 1).1 = Except.ok 42 ∧
      sendCount (execute fetchServerErrThenOk 1).2 = 2) ∧
    (∀ (maxRetries : Nat) (fetch : Nat → HttpResponse) (e : MetaApiError),
      (fetch 0).body = Body.vendorErr e → e.code = 190 →
      (execute fetch maxRetries).1 = Except.error (ExecErr.mcp (mapMetaErrorToMcp e)) ∧
      sendCount (execute fetch maxRetries).2 = 1) ∧
    (∀ (fetch : Nat → HttpResponse) (maxRetries : Nat),
      (∀ i, ¬ isSuccessResponse (fetch i)) →
      ∃ err, (execute fetch maxRetries).1 = Except.error err) := by
  refine ⟨⟨rfl, rfl⟩, ?_, ?_⟩
  · intro maxRetries fetch e hb h190
    have h1 : e.code = 190 ∨ e.code = 100 ∨ e.code = 10 := Or.inl h190
    constructor
    · show (execAttempts fetch maxRetries (maxRetries + 1) 0 none).1 = _
      simp only [execAttempts, hb]
      rw [if_pos h1]
    · show sendCount (Ev.wait :: (execAttempts fetch maxRetries (maxRetries + 1) 0 none).2) = 1
      simp only [execAttempts, hb]
      rw [if_pos h1]
      rfl
  · intro fetch maxRetries h
    exact execAttempts_error_of_no_success fetch maxRetries h (maxRetries + 1) 0 none

/-- Witness for C1: the code 190 clause applied to a concrete transport. -/
theorem execute_retries_transient_raises_terminal_witness :
    (execute fetch190 2).1 = Except.error (ExecErr.mcp (mapMetaErrorToMcp err190)) ∧
    sendCount (execute fetch190 2).2 = 1 :=
  execute_retries_transient_raises_terminal.2.1 2 fetch190 err190 rfl rfl

/-- C2: the source classifies a vendor error with code 100 and subcode 33
as an invalid-parameter error, not as not-found, because the `code === 100`
branch precedes and shadows the `code === 803 || code === 100 &&
error_subcode === 33` not-found branch; code 803 alone does reach the
not-found classification. -/
theorem mapMetaError_subcode33_shadowed :
    mapMetaErrorToMcp { code := 100, error_subcode := some 33, message := "msg" } =
      { code := ErrorCode.invalidParams, message := "Invalid parameter: msg (subcode: 33)" } ∧
    mapMetaErrorToMcp { code := 803, error_subcode := none, message := "msg" } =
      { code := ErrorCode.invalidParams, message := "Object not found: msg" } :=
  ⟨rfl, rfl⟩

/-- Counterexample for C3: a code 613 vendor error is raised by the
executor on first occurrence — the transport is invoked once and execute
raises the classified rate-limit error instead of retrying. -/
theorem rate_limit_613_not_retried :
    (execute fetch613ThenOk 1).1 =
      Except.error (ExecErr.mcp
        (mapMetaErrorToMcp { code := 613, error_subcode := none, message := "rl" })) ∧
    sendCount (execute fetch613ThenOk 1).2 = 1 :=
  ⟨rfl, rfl⟩

/-- C3 amended: the classifier maps vendor codes 4, 17, 32 and 613 to the
rate-limited MCP error, but the executor retries only codes 4, 17 and 32
(recording the error and backing off); a code 613 error is raised on first
occurrence with a single transport send. -/
theorem rate_limit_retry_only_4_17_32 :
    (∀ (sc : Option Int) (m : String) (c : Int),
      c = 4 ∨ c = 17 ∨ c = 32 ∨ c = 613 →
      mapMetaErrorToMcp { code := c, error_subcode := sc, message := m } =
        { code := ErrorCode.invalidRequest,
          message := "Rate limit exceeded. Please wait and try again. (Meta: " ++ m ++ ")" }) ∧
    ((execute (fetchRlThenOk 4) 1).1 = Except.ok 7 ∧
      sendCount (execute (fetchRlThenOk 4) 1).2 = 2) ∧
    ((execute (fetchRlThenOk 17) 1).1 = Except.ok 7 ∧
      sendCount (execute (fetchRlThenOk 17) 1).2 = 2) ∧
    ((execute (fetchRlThenOk 32) 1).1 = Except.ok 7 ∧
      sendCount (execute (fetchRlThenOk 32) 1).2 = 2) ∧
    ((execute (fetchRlThenOk 613) 1).1 =
        Except.error (ExecErr.mcp
          { code := ErrorCode.invalidRequest,
            message := "Rate limit exceeded. Please wait and try again. (Meta: rl)" }) ∧
      sendCount (execute (fetchRlThenOk 613) 1).2 = 1) := by
  refine ⟨?_, ⟨rfl, rfl⟩, ⟨rfl, rfl⟩, ⟨rfl, rfl⟩, ⟨rfl, rfl⟩⟩
  intro sc m c hc
  obtain h | h | h | h := hc <;> subst h <;> rfl

/-- Witness for C3: the classifier clause applied at code 4. -/
theorem rate_limit_retry_only_4_17_32_witness :
    mapMetaErrorToMcp { code := 4, error_subcode := none, message := "m" } =
      { code := ErrorCode.invalidRequest,
        message := "Rate limit exceeded. Please wait and try again. (Meta: m)" } :=
  rate_limit_retry_only_4_17_32.1 none "m" 4 (Or.inl rfl)

/-- Counterexample for C4: a two-attempt run of execute (HTTP 500 then
success) performs two transport sends but only one throttle wait, so the
second attempt is not preceded by a throttle sleep. -/
theorem throttle_before_every_attempt_counterexample :
    execute fetch500ThenOk 1 = (Except.ok 9, [Ev.wait, Ev.send, Ev.backoff, Ev.send]) ∧
    sendCount [Ev.wait, Ev.send, Ev.backoff, Ev.send] = 2 ∧
    waitCount [Ev.wait, Ev.send, Ev.backoff, Ev.send] = 1 :=
  ⟨rfl, rfl, rfl⟩

/-- C4 amended: within one call to execute the throttle delay is slept
exactly once, before the first attempt; retry attempts are preceded only by
the exponential backoff, never by another throttle sleep. -/
theorem execute_throttles_exactly_once (fetch : Nat → HttpResponse) (maxRetries : Nat) :
    (execute fetch maxRetries).2.head? = some Ev.wait ∧
    waitCount (execute fetch maxRetries).2 = 1 := by
  constructor
  · rfl
  · show waitCount (Ev.wait :: (execAttempts fetch maxRetries (maxRetries + 1) 0 none).2) = 1
    simp only [waitCount, execAttempts_waitCount]

theorem jsRound_mono {x y : ℚ} (h : x ≤ y) : jsRound x ≤ jsRound y :=
  Int.floor_le_floor (by linarith)

theorem le_jsRound {B : ℤ} {x : ℚ} (h : (B : ℚ) ≤ x + 1/2) : B ≤ jsRound x :=
  Int.le_floor.mpr h

theorem jsRound_le {x : ℚ} {B : ℤ} (h : x + 1/2 < (B : ℚ) + 1) : jsRound x ≤ B := by
  have hlt : jsRound x < B + 1 := Int.floor_lt.mpr (by push_cast; linarith)
  omega

theorem getThrottleDelay_band1 (st : RateLimiterState) (h1 : 75 ≤ currentUsage st)
    (h2 : currentUsage st < 95) :
    getThrottleDelay st = jsRound (100 + (currentUsage st - 75) / 20 * 1900) := by
  simp only [getThrottleDelay]
  rw [if_neg (not_lt.mpr h1), if_pos h2]

theorem getThrottleDelay_band2 (st : RateLimiterState) (h1 : 95 ≤ currentUsage st) :
    getThrottleDelay st = jsRound (5000 + (currentUsage st - 95) / 5 * 55000) := by
  simp only [getThrottleDelay]
  rw [if_neg (by linarith), if_neg (not_lt.mpr h1)]

/-- Counterexample for C5: at a tracked usage of 200 (headers are not
clamped to 100), the delay is 1160000 ms, far above the claimed 60000 ms
upper bound for the band u ≥ 95. -/
theorem throttle_delay_exceeds_60000 :
    (95 : ℚ) ≤ currentUsage { appUsagePercent := 200, accountUsagePercent := 0 } ∧
    60000 < getThrottleDelay { appUsagePercent := 200, accountUsagePercent := 0 } := by
  constructor
  · decide
  · norm_num [getThrottleDelay, currentUsage, max_def, jsRound]

/-- C5 amended: the delay is 0 for usage below 75; on [75, 95) it is
monotonically non-decreasing with values in [100, 2000]; for usage ≥ 95 it
is monotonically non-decreasing and at least 5000, and it is at most 60000
only while usage stays ≤ 100 (beyond 100 the ramp keeps growing). -/
theorem throttle_delay_bands :
    (∀ st : RateLimiterState, currentUsage st < 75 → getThrottleDelay st = 0) ∧
    (∀ st st' : RateLimiterState, 75 ≤ currentUsage st → currentUsage st ≤ currentUsage st' →
      currentUsage st' < 95 → getThrottleDelay st ≤ getThrottleDelay st') ∧
    (∀ st : RateLimiterState, 75 ≤ currentUsage st → currentUsage st < 95 →
      100 ≤ getThrottleDelay st ∧ getThrottleDelay st ≤ 2000) ∧
    (∀ st st' : RateLimiterState, 95 ≤ currentUsage st → currentUsage st ≤ currentUsage st' →
      getThrottleDelay st ≤ getThrottleDelay st') ∧
    (∀ st : RateLimiterState, 95 ≤ currentUsage st → 5000 ≤ getThrottleDelay st) ∧
    (∀ st : RateLimiterState, 95 ≤ currentUsage st → currentUsage st ≤ 100 →
      getThrottleDelay st ≤ 60000) := by
  refine ⟨?_, ?_, ?_, ?_, ?_, ?_⟩
  · intro st h
    simp only [getThrottleDelay]
    rw [if_pos h]
  · intro st st' h1 h12 h2
    rw [getThrottleDelay_band1 st h1 (lt_of_le_of_lt h12 h2),
      getThrottleDelay_band1 st' (le_trans h1 h12) h2]
    exact jsRound_mono (by linarith)
  · intro st h1 h2
    rw [getThrottleDelay_band1 st h1 h2]
    constructor
    · exact le_jsRound (by push_cast; linarith)
    · exact jsRound_le (by push_cast; linarith)
  · intro st st' h1 h12
    rw [getThrottleDelay_band2 st h1, getThrottleDelay_band2 st' (le_trans h1 h12)]
    exact jsRound_mono (by linarith)
  · intro st h1
    rw [getThrottleDelay_band2 st h1]
    exact le_jsRound (by push_cast; linarith)
  · intro st h1 h2
    rw [getThrottleDelay_band2 st h1]
    exact jsRound_le (by push_cast; linarith)

/-- Witness for C5: the band statements applied at concrete usage states. -/
theorem throttle_delay_bands_witness :
    getThrottleDelay { appUsagePercent := 50, accountUsagePercent := 0 } = 0 ∧
    getThrottleDelay { appUsagePercent := 80, accountUsagePercent := 0 } ≤
      getThrottleDelay { appUsagePercent := 90, accountUsagePercent := 0 } ∧
    (100 ≤ getThrottleDelay { appUsagePercent := 80, accountUsagePercent := 0 } ∧
      getThrottleDelay { appUsagePercent := 80, accountUsagePercent := 0 } ≤ 2000) ∧
    getThrottleDelay { appUsagePercent := 96, accountUsagePercent := 0 } ≤
      getThrottleDelay { appUsagePercent := 99, accountUsagePercent := 0 } ∧
    5000 ≤ getThrottleDelay { appUsagePercent := 96, accountUsagePercent := 0 } ∧
    getThrottleDelay { appUsagePercent := 96, accountUsagePercent := 0 } ≤ 60000 :=
  ⟨throttle_delay_bands.1 _ (by decide),
    throttle_delay_bands.2.1 _ _ (by decide) (by decide) (by decide),
    throttle_delay_bands.2.2.1 _ (by decide) (by decide),
    throttle_delay_bands.2.2.2.1 _ _ (by decide) (by decide),
    throttle_delay_bands.2.2.2.2.1 _ (by decide),
    throttle_delay_bands.2.2.2.2.2 _ (by decide) (by decide)⟩

theorem collectLoop_length_le {T : Type} (f : String → Page T) (mi : Nat) :
    ∀ (fuel : Nat) (items : List T) (paging : Option Paging) (calls : List String),
      ((collectLoop f mi fuel items paging calls).1).length ≤ mi := by
  intro fuel
  induction fuel with
  | zero =>
    intro items paging calls
    rw [collectLoop, List.length_take]
    exact min_le_left _ _
  | succ n ih =>
    intro items paging calls
    simp only [collectLoop]
    split
    · split
      · rw [List.length_take]; exact min_le_left _ _
      · exact ih _ _ _
    · rw [List.length_take]; exact min_le_left _ _

/-- C6: page collection seeds the result with the first page's items,
keeps fetching while fewer than maxItems items are collected and an after
cursor is present, stops as soon as no after cursor is present even when a
next link is present (recording no further continuation call), and
truncates the result to at most maxItems items; on the three-page scenario
it yields [1, 2, 3] for maxItems = 1000 and exactly [1, 2] for
maxItems = 2. -/
theorem collectAllPages_cursor_pagination :
    (∀ (T : Type) (fp : Page T) (f : String → Page T) (mi fuel : Nat),
      ((collectAllPages fp f mi fuel).1).length ≤ mi) ∧
    (∀ (T : Type) (fp : Page T) (f : String → Page T) (mi fuel : Nat),
      truthy (getAfterCursor fp.paging) = none →
      collectAllPages fp f mi fuel = (fp.data.take mi, [])) ∧
    collectAllPages pageOne fetchPages 1000 5 = ([1, 2, 3], ["a", "b"]) ∧
    collectAllPages pageOne fetchPages 2 5 = ([1, 2], ["a"]) := by
  refine ⟨?_, ?_, rfl, rfl⟩
  · intro T fp f mi fuel
    exact collectLoop_length_le f mi fuel fp.data fp.paging []
  · intro T fp f mi fuel h
    cases fuel with
    | zero => rfl
    | succ n =>
      simp only [collectAllPages, collectLoop]
      split
      · rw [h]
      · rfl

/-- Witness for C6: the stop clause applied to a cursorless page that still
carries a next link — no continuation call is recorded. -/
theorem collectAllPages_cursor_pagination_witness :
    collectAllPages pageThree (fun _ => pageThree) 10 3 = ([3], []) :=
  collectAllPages_cursor_pagination.2.1 Nat pageThree (fun _ => pageThree) 10 3 rfl

/-- C7: credential resolution returns the per-call-context override first,
then the registry's active token, then the configured fallback, each
subject to JavaScript truthiness; with none of the three available it
fails with the no-credential error rather than returning a value. -/
theorem getAccessToken_resolution_order :
    (∀ (ctx : Option String) (tm : TokenManagerState) (envToken : Option String) (t : String),
      truthy ctx = some t → getAccessToken ctx tm envToken = Except.ok t) ∧
    (∀ (ctx : Option String) (tm : TokenManagerState) (envToken : Option String) (t : String),
      truthy ctx = none → truthy (getActiveToken tm) = some t →
      getAccessToken ctx tm envToken = Except.ok t) ∧
    (∀ (ctx : Option String) (tm : TokenManagerState) (envToken : Option String) (t : String),
      truthy ctx = none → truthy (getActiveToken tm) = none → truthy envToken = some t →
      getAccessToken ctx tm envToken = Except.ok t) ∧
    (∀ (ctx : Option String) (tm : TokenManagerState) (envToken : Option String),
      truthy ctx = none → truthy (getActiveToken tm) = none → truthy envToken = none →
      ∃ msg, getAccessToken ctx tm envToken = Except.error msg) := by
  refine ⟨?_, ?_, ?_, ?_⟩
  · intro ctx tm envToken t h1
    simp only [getAccessToken, h1]
  · intro ctx tm envToken t h1 h2
    simp only [getAccessToken, h1, h2]
  · intro ctx tm envToken t h1 h2 h3
    simp only [getAccessToken, h1, h2, h3]
  · intro ctx tm envToken h1 h2 h3
    exact ⟨"No Meta access token available. Provide via X-Meta-Token header, META_TOKENS env var, or META_ACCESS_TOKEN env var.",
      by simp only [getAccessToken, h1, h2, h3]⟩

/-- Witness for C7: a per-call override wins over a registry that also has
an active token. -/
theorem getAccessToken_resolution_order_witness :
    getAccessToken (some "ctxTok") { tokens := [("X", "regTok")], activeTokenName := some "X" }
      (some "envTok") = Except.ok "ctxTok" :=
  getAccessToken_resolution_order.1 (some "ctxTok")
    { tokens := [("X", "regTok")], activeTokenName := some "X" } (some "envTok") "ctxTok" rfl

theorem mapGet_mapSet_self (l : List (String × String)) (k v : String) :
    mapGet (mapSet l k v) k = some v := by
  induction l with
  | nil => simp [mapSet, mapGet]
  | cons p rest ih =>
    by_cases h : p.1 = k
    · simp [mapSet, mapGet, h]
    · simp only [mapSet, mapGet]
      rw [if_neg h, mapGet, if_neg h]
      exact ih

/-- C8: registering a token under a nonempty name while no token is active
makes that name active, and a subsequent resolution with no per-call
override and no environment fallback yields exactly the registered token;
setActiveToken returns true if and only if the name is registered, and
leaves the state unchanged for an unknown name. -/
theorem token_registry_roundtrip :
    (∀ (tm : TokenManagerState) (name token : String),
      truthy tm.activeTokenName = none → name ≠ "" → token ≠ "" →
      (registerToken tm name token).activeTokenName = some name ∧
      getAccessToken none (registerToken tm name token) none = Except.ok token) ∧
    (∀ (tm : TokenManagerState) (name : String),
      (setActiveToken tm name).1 = mapHas tm.tokens name) ∧
    (∀ (tm : TokenManagerState) (name : String),
      mapHas tm.tokens name = false → (setActiveToken tm name).2 = tm) := by
  refine ⟨?_, ?_, ?_⟩
  · intro tm name token hact hname htok
    have hreg : registerToken tm name token =
        { tokens := mapSet tm.tokens name token, activeTokenName := some name } := by
      simp only [registerToken]
      rw [show ({ tm with tokens := mapSet tm.tokens name token } :
        TokenManagerState).activeTokenName = tm.activeTokenName from rfl, hact]
    refine ⟨by rw [hreg], ?_⟩
    rw [hreg]
    have htr : truthy (some name) = some name := by
      simp only [truthy]; rw [if_neg hname]
    have h2 : getActiveToken
        { tokens := mapSet tm.tokens name token, activeTokenName := some name } = some token := by
      simp only [getActiveToken, htr]
      exact mapGet_mapSet_self tm.tokens name token
    have htok2 : truthy (some token) = some token := by
      simp only [truthy]; rw [if_neg htok]
    simp only [getAccessToken, show truthy (none : Option String) = none from rfl, h2, htok2]
  · intro tm name
    by_cases h : mapHas tm.tokens name <;> simp [setActiveToken, h]
  · intro tm name h
    simp [setActiveToken, h]

/-- Witness for C8: registering "X" in an empty registry and resolving. -/
theorem token_registry_roundtrip_witness :
    (registerToken { tokens := [], activeTokenName := none } "X" "tok").activeTokenName =
      some "X" ∧
    getAccessToken none (registerToken { tokens := [], activeTokenName := none } "X" "tok")
      none = Except.ok "tok" :=
  token_registry_roundtrip.1 { tokens := [], activeTokenName := none } "X" "tok" rfl
    (by decide) (by decide)

/-- C9: for every prior usage state, a response whose usage headers are
each absent or contain malformed JSON leaves the tracker unchanged — in
particular currentUsage afterwards equals currentUsage before, and it is
not reset to 0. -/
theorem updateFromHeaders_malformed_ignored :
    ∀ (st : RateLimiterState) (appHeader : Option (Option AppUsagePayload))
      (bizHeader : Option (Option (List (List BizUsageEntry)))),
      (appHeader = none ∨ appHeader = some none) →
      (bizHeader = none ∨ bizHeader = some none) →
      updateFromHeaders st appHeader bizHeader = st ∧
      currentUsage (updateFromHeaders st appHeader bizHeader) = currentUsage st := by
  intro st appHeader bizHeader ha hb
  have h : updateFromHeaders st appHeader bizHeader = st := by
    rcases ha with rfl | rfl <;> rcases hb with rfl | rfl <;> rfl
  exact ⟨h, by rw [h]⟩

/-- Witness for C9: both headers present but malformed, nonzero prior
state preserved. -/
theorem updateFromHeaders_malformed_ignored_witness :
    updateFromHeaders { appUsagePercent := 50, accountUsagePercent := 60 } (some none)
        (some none) =
      { appUsagePercent := 50, accountUsagePercent := 60 } ∧
    currentUsage (updateFromHeaders { appUsagePercent := 50, accountUsagePercent := 60 }
        (some none) (some none)) =
      currentUsage { appUsagePercent := 50, accountUsagePercent := 60 } :=
  updateFromHeaders_malformed_ignored { appUsagePercent := 50, accountUsagePercent := 60 }
    (some none) (some none) (Or.inr rfl) (Or.inr rfl)

/-- C10: when the first page fetched by getPaginated has no data field,
the result is the empty list and no continuation call is recorded — the
only GET is the initial one that produced the first page. -/
theorem getPaginated_missing_data_empty :
    ∀ (T : Type) (fp : RawPage T) (f : String → Page T) (mi fuel : Nat),
      fp.data = none → getPaginated fp f mi fuel = ([], []) := by
  intro T fp f mi fuel h
  simp [getPaginated, h]

/-- Witness for C10: a dataless first page that still carries paging with
a next link yields the empty result and no continuation call. -/
theorem getPaginated_missing_data_empty_witness :
    getPaginated rawNoData (fun _ => pageThree) 1000 5 = ([], []) :=
  getPaginated_missing_data_empty Nat rawNoData (fun _ => pageThree) 1000 5 rfl
